import Mathlib

/-!
Verification of examples/plsqlrecord.js.

The script is a linear sequence of driver calls wrapped in
try / catch / finally.  We embed it shallowly: every driver call is an
oracle that either succeeds or fails, collected in a `Driver` record, and
`run` is the pure function of that record describing exactly which steps
are attempted, what is logged, what is printed and how often the
connection is closed.  The remote procedure `rectest.myproc` is embedded
from the PL/SQL package body in the source (it copies the input record and
doubles its POS field); per the spec, the external call is stubbed to
apply exactly that transformation.
-/

/-- A PL/SQL RECORD value of type RECTEST.RECTYPE: field NAME is a string,
field POS a number (source lines 66-69). -/
structure RecType where
  NAME : String
  POS : Int
deriving DecidableEq

/-- The remote procedure rectest.myproc, embedded from the PL/SQL package
body (source lines 71-77): p_out gets p_in, then p_out.pos is doubled. -/
def myproc (p_in : RecType) : RecType :=
  RecType.mk p_in.NAME (p_in.POS * 2)

/-- The three single-execution binding styles of the script: an instance
built with the RecTypeClass constructor (line 102), a plain value mapping
bound with the type descriptor (line 115), and a plain value mapping bound
with the qualified type name (line 124). -/
inductive InBindStyle where
  | constructed : RecType → InBindStyle
  | withDescriptor : RecType → InBindStyle
  | withTypeName : String → RecType → InBindStyle
deriving DecidableEq

/-- The record value the driver marshals from each binding style: all
three styles denote the same underlying record (driver marshalling,
stubbed per the spec). -/
def bindValue : InBindStyle → RecType
  | InBindStyle.constructed r => r
  | InBindStyle.withDescriptor r => r
  | InBindStyle.withTypeName _ r => r

/-- The outbv record produced by one successful `connection.execute` of
`CALL rectest.myproc(:inbv, :outbv)`: the remote procedure applied to the
marshalled input. -/
def plsqlOut (b : InBindStyle) : RecType := myproc (bindValue b)

/-- The outBinds list produced by one successful `connection.executeMany`
of the same call: one output record per input row, in row order. -/
def executeManyOut (rows : List RecType) : List RecType := rows.map myproc

/-- Input record of the first single execution (source line 102). -/
def shipIn : RecType := RecType.mk "Ship" 12

/-- Input record of the second single execution (source line 115). -/
def planeIn : RecType := RecType.mk "Plane" 34

/-- Input record of the third single execution (source line 124). -/
def carIn : RecType := RecType.mk "Car" 56

/-- Input rows of the executeMany call (source lines 137-140). -/
def trainBikeRows : List RecType :=
  [RecType.mk "Train" 78, RecType.mk "Bike" 83]

/-- The driver calls made by run, used to tag attempts and logged
errors. -/
inductive Step where
  | getConn
  | ddl1
  | ddl2
  | getClass
  | exec1
  | exec2
  | exec3
  | execMany
  | close
deriving DecidableEq

/-- Success or failure of each external driver call made by run: the
connection acquisition (line 59), the two DDL statements (lines 80-86),
the getDbObjectClass fetch (line 93), the three execute calls (lines 109,
119, 128), the executeMany call (line 149) and the close (line 159). -/
structure Driver where
  getConnOk : Bool
  ddl1Ok : Bool
  ddl2Ok : Bool
  getClassOk : Bool
  exec1Ok : Bool
  exec2Ok : Bool
  exec3Ok : Bool
  execManyOk : Bool
  closeOk : Bool
deriving DecidableEq

/-- Observable outcome of the body of the outer try (source lines 57-153):
which steps were attempted, the errors logged by the inner DDL catches,
the number of execute / executeMany calls of the procedure attempted, the
outBinds list of the executeMany call, and the record values printed to
standard output. -/
structure BodyOut where
  ddl1Attempted : Bool
  ddl2Attempted : Bool
  ddlErrors : List Step
  getClassAttempted : Bool
  execAttempts : Nat
  outBindsMany : List RecType
  printed : List RecType
deriving DecidableEq

/-- Body outcome when nothing past the connection attempt ran. -/
def emptyBody : BodyOut := BodyOut.mk false false [] false 0 [] []

/-- The body of the outer try (source lines 57-153): its observable
outcome paired with the error it throws to the outer catch, if any.  Each
DDL statement has its own inner try / catch (lines 81-85), so both are
always attempted once a connection exists and their failures are only
logged; every other failure aborts the rest of the body. -/
def runBody (d : Driver) : BodyOut × Option Step :=
  if d.getConnOk then
    let ddlErrs : List Step :=
      (if d.ddl1Ok then [] else [Step.ddl1]) ++
      (if d.ddl2Ok then [] else [Step.ddl2])
    if d.getClassOk then
      if d.exec1Ok then
        let out1 := plsqlOut (InBindStyle.constructed shipIn)
        if d.exec2Ok then
          let out2 := plsqlOut (InBindStyle.withDescriptor planeIn)
          if d.exec3Ok then
            let out3 := plsqlOut (InBindStyle.withTypeName "RECTEST.RECTYPE" carIn)
            if d.execManyOk then
              let outs := executeManyOut trainBikeRows
              (BodyOut.mk true true ddlErrs true 4 outs
                (out1 :: out2 :: out3 :: outs), none)
            else
              (BodyOut.mk true true ddlErrs true 4 [] [out1, out2, out3],
                some Step.execMany)
          else
            (BodyOut.mk true true ddlErrs true 3 [] [out1, out2],
              some Step.exec3)
        else
          (BodyOut.mk true true ddlErrs true 2 [] [out1], some Step.exec2)
      else
        (BodyOut.mk true true ddlErrs true 1 [] [], some Step.exec1)
    else
      (BodyOut.mk true true ddlErrs true 0 [] [], some Step.getClass)
  else
    (emptyBody, some Step.getConn)

/-- Observable outcome of one invocation of run: the body outcome, whether
a connection was acquired, everything logged to standard error in order,
and how many times connection.close was attempted. -/
structure RunOut where
  body : BodyOut
  connAcquired : Bool
  loggedErrors : List Step
  closeAttempts : Nat
deriving DecidableEq

/-- The connection.close call (source line 159). -/
def closeCall (d : Driver) : Except Step Unit :=
  if d.closeOk then Except.ok () else Except.error Step.close

/-- The finally block (source lines 156-164): close is attempted only when
`connection` is set, and its error is swallowed by the inner catch (lines
158-162).  Returns the number of close attempts and the close errors
logged; an `Except.error` here would escape run. -/
def finallyBlock (d : Driver) : Except Step (Nat × List Step) :=
  if d.getConnOk then
    match closeCall d with
    | Except.ok _ => Except.ok (1, [])
    | Except.error e => Except.ok (1, [e])
  else
    Except.ok (0, [])

/-- One invocation of run (source lines 51-165): the body runs inside the
outer try, any thrown error is logged by the outer catch (lines 154-155),
then the finally block closes the connection if one was acquired. -/
def run (d : Driver) : RunOut :=
  let br := runBody d
  let fin : Nat × List Step :=
    if d.getConnOk then (1, if d.closeOk then [] else [Step.close])
    else (0, [])
  RunOut.mk br.1 d.getConnOk (br.1.ddlErrors ++ br.2.toList ++ fin.2) fin.1

/-- run as seen by its caller: `Except.error` is a rejection of the
promise returned by run (an error escaping the catch / finally
structure); `Except.ok` is normal completion.  The outer catch swallows
the body error, so only an error escaping the finally block could
reject. -/
def runTop (d : Driver) : Except Step RunOut :=
  let br := runBody d
  match finallyBlock d with
  | Except.error e => Except.error e
  | Except.ok fin =>
      Except.ok
        (RunOut.mk br.1 d.getConnOk (br.1.ddlErrors ++ br.2.toList ++ fin.2)
          fin.1)

/-- The driver on which every call succeeds. -/
def allOkDriver : Driver :=
  Driver.mk true true true true true true true true true

/-- Every driver call of run succeeds. -/
def allCallsOk (d : Driver) : Bool :=
  d.getConnOk && d.ddl1Ok && d.ddl2Ok && d.getClassOk && d.exec1Ok &&
    d.exec2Ok && d.exec3Ok && d.execManyOk && d.closeOk

/-- The Windows client-library directory hard-coded at source line 43. -/
def winLibPath : String := "C:\\oracle\\instantclient_19_12"

/-- The macOS client-library directory is HOME plus this suffix (source
line 45). -/
def macLibSuffix : String := "/Downloads/instantclient_19_8"

/-- The libPath variable after the platform branch at module load (source
lines 41-46): set on win32 and darwin, left undefined elsewhere. -/
def libPathOf (platform : String) (home : String) : Option String :=
  if platform = "win32" then some winLibPath
  else if platform = "darwin" then some (home ++ macLibSuffix)
  else none

/-- Whether oracledb.initOracleClient is invoked at module load (source
lines 47-49): libPath must be set, truthy (non-empty), and name an
existing directory, `ex` being the fs.existsSync oracle. -/
def initInvoked (platform home : String) (ex : String → Bool) : Bool :=
  match libPathOf platform home with
  | some p => if p = "" then false else ex p
  | none => false

/-- Externally visible events of the script: an initOracleClient call with
its libDir, or one of the driver calls of run. -/
inductive Event where
  | initClient : String → Event
  | call : Step → Event
deriving DecidableEq

/-- Recognizes an initOracleClient event. -/
def isInitEvent : Event → Bool
  | Event.initClient _ => true
  | Event.call _ => false

/-- Events of module load (source lines 41-49), before run is called: one
initOracleClient call with libDir libPath when the guard of line 47 holds,
nothing otherwise. -/
def moduleLoadEvents (platform home : String) (ex : String → Bool) :
    List Event :=
  if initInvoked platform home ex then
    [Event.initClient ((libPathOf platform home).getD "")]
  else []

/-- The driver calls run attempts, in order: getConnection first; once a
connection exists both DDL statements, then getDbObjectClass; each
execute only if every earlier main-sequence call succeeded; close in the
finally block whenever a connection was acquired. -/
def runCalls (d : Driver) : List Step :=
  Step.getConn ::
    (if d.getConnOk then
      ([Step.ddl1, Step.ddl2, Step.getClass] ++
        (if d.getClassOk then
          Step.exec1 ::
            (if d.exec1Ok then
              Step.exec2 ::
                (if d.exec2Ok then
                  Step.exec3 ::
                    (if d.exec3Ok then [Step.execMany] else [])
                else [])
            else [])
        else []) ++ [Step.close])
    else [])

/-- Events of one run invocation. -/
def runEvents (d : Driver) : List Event := (runCalls d).map Event.call

/-- Events of the whole script: module load runs first (lines 41-49), then
run is called (line 167). -/
def scriptEvents (platform home : String) (ex : String → Bool)
    (d : Driver) : List Event :=
  moduleLoadEvents platform home ex ++ runEvents d

/-- An existsSync oracle on which every path exists. -/
def exTrue : String → Bool := fun _ => true

/-- A connection-acquisition failure, every other call succeeding. -/
def connFailDriver : Driver :=
  Driver.mk false true true true true true true true true

/-- A getDbObjectClass failure after a successful connection. -/
def classFailDriver : Driver :=
  Driver.mk true true true false true true true true true

/-- A getDbObjectClass failure followed by a close failure. -/
def classCloseFailDriver : Driver :=
  Driver.mk true true true false true true true true false

/-- The promise of run always resolves: the outer catch swallows the body
error and the finally block swallows the close error, so the escape-aware
semantics agrees with the total one on every driver. -/
theorem runTop_eq_ok (d : Driver) : runTop d = Except.ok (run d) := by
  obtain ⟨c, a1, a2, g, e1, e2, e3, em, cl⟩ := d
  cases c <;> cases cl <;> rfl

/-- C1: for each of the four binding styles (explicit constructor
instance, value mapping with the type descriptor, value mapping with the
qualified type name, and batched executeMany), an input record with NAME n
and POS p yields an output record bound to outbv with NAME equal to n and
POS equal to twice p, the remote procedure applying the transformation of
the package body. -/
theorem spec_C1 (n : String) (p : Int) :
    plsqlOut (InBindStyle.constructed (RecType.mk n p)) = RecType.mk n (2 * p) ∧
    plsqlOut (InBindStyle.withDescriptor (RecType.mk n p)) = RecType.mk n (2 * p) ∧
    plsqlOut (InBindStyle.withTypeName "RECTEST.RECTYPE" (RecType.mk n p)) =
      RecType.mk n (2 * p) ∧
    executeManyOut [RecType.mk n p] = [RecType.mk n (2 * p)] := by
  refine ⟨?_, ?_, ?_, ?_⟩ <;>
    simp [plsqlOut, bindValue, myproc, executeManyOut, Int.mul_comm]

/-- C2: the batched executeMany call on rows Train 78 and Bike 83 produces
the output records Train 156 and Bike 166, and for every row index the
element of result.outBinds at that index is the remote procedure applied
to the input row at the same index. -/
theorem spec_C2 :
    (run allOkDriver).body.outBindsMany =
      [RecType.mk "Train" 156, RecType.mk "Bike" 166] ∧
    ∀ i : Fin trainBikeRows.length,
      (run allOkDriver).body.outBindsMany[i.val]? =
        some (myproc (trainBikeRows.get i)) := by
  decide

/-- C3: on every execution of run on which a connection is acquired,
whether the remaining steps succeed or fail in any combination,
connection.close is attempted exactly once. -/
theorem spec_C3 (d : Driver) (h : d.getConnOk = true) :
    (run d).closeAttempts = 1 := by
  obtain ⟨c, a1, a2, g, e1, e2, e3, em, cl⟩ := d
  revert h
  cases c <;> cases a1 <;> cases a2 <;> cases g <;> cases e1 <;> cases e2 <;>
    cases e3 <;> cases em <;> cases cl <;> decide

/-- C3 holds at the all-success driver. -/
theorem spec_C3_witness :
    allOkDriver.getConnOk = true ∧ (run allOkDriver).closeAttempts = 1 :=
  ⟨rfl, spec_C3 allOkDriver rfl⟩

/-- C4: when connection acquisition fails, neither DDL statement is
attempted, the descriptor is not fetched, no execute or executeMany call
is attempted, and close is never attempted. -/
theorem spec_C4 (d : Driver) (h : d.getConnOk = false) :
    (run d).body.ddl1Attempted = false ∧
    (run d).body.ddl2Attempted = false ∧
    (run d).body.getClassAttempted = false ∧
    (run d).body.execAttempts = 0 ∧
    (run d).closeAttempts = 0 := by
  obtain ⟨c, a1, a2, g, e1, e2, e3, em, cl⟩ := d
  revert h
  cases c <;> cases a1 <;> cases a2 <;> cases g <;> cases e1 <;> cases e2 <;>
    cases e3 <;> cases em <;> cases cl <;> decide

/-- C4 holds at a driver whose connection acquisition fails. -/
theorem spec_C4_witness :
    connFailDriver.getConnOk = false ∧
    ((run connFailDriver).body.ddl1Attempted = false ∧
      (run connFailDriver).body.ddl2Attempted = false ∧
      (run connFailDriver).body.getClassAttempted = false ∧
      (run connFailDriver).body.execAttempts = 0 ∧
      (run connFailDriver).closeAttempts = 0) :=
  ⟨rfl, spec_C4 connFailDriver rfl⟩

/-- C5: when the package-specification DDL statement fails, the
package-body DDL statement is still attempted, each failing DDL statement
is logged individually, and the run proceeds to the descriptor fetch
instead of aborting. -/
theorem spec_C5 (d : Driver) (h1 : d.getConnOk = true) (h2 : d.ddl1Ok = false) :
    (run d).body.ddl1Attempted = true ∧
    (run d).body.ddl2Attempted = true ∧
    Step.ddl1 ∈ (run d).loggedErrors ∧
    (d.ddl2Ok = false → Step.ddl2 ∈ (run d).loggedErrors) ∧
    (run d).body.getClassAttempted = true := by
  obtain ⟨c, a1, a2, g, e1, e2, e3, em, cl⟩ := d
  revert h1 h2
  cases c <;> cases a1 <;> cases a2 <;> cases g <;> cases e1 <;> cases e2 <;>
    cases e3 <;> cases em <;> cases cl <;> decide

/-- C5 holds at a driver whose first DDL statement fails. -/
theorem spec_C5_witness :
    (Driver.mk true false true true true true true true true).getConnOk = true ∧
    (Driver.mk true false true true true true true true true).ddl1Ok = false ∧
    ((run (Driver.mk true false true true true true true true true)).body.ddl1Attempted = true ∧
      (run (Driver.mk true false true true true true true true true)).body.ddl2Attempted = true ∧
      Step.ddl1 ∈ (run (Driver.mk true false true true true true true true true)).loggedErrors ∧
      ((Driver.mk true false true true true true true true true).ddl2Ok = false →
        Step.ddl2 ∈ (run (Driver.mk true false true true true true true true true)).loggedErrors) ∧
      (run (Driver.mk true false true true true true true true true)).body.getClassAttempted = true) :=
  ⟨rfl, rfl, spec_C5 (Driver.mk true false true true true true true true true) rfl rfl⟩

/-- C6: for every combination of failing steps, run completes normally:
the escape-aware semantics of run never rejects and resolves with the
outcome of the total semantics, every failure having been caught and
logged inside run. -/
theorem spec_C6 (d : Driver) : runTop d = Except.ok (run d) :=
  runTop_eq_ok d

set_option maxHeartbeats 1600000 in
/-- C7: when close fails during the finally block, the close error is
logged and never escapes run, and it does not mask an earlier error: any
error thrown by the body is still logged and run still resolves normally
with its outcome. -/
theorem spec_C7 (d : Driver) (h1 : d.getConnOk = true) (h2 : d.closeOk = false) :
    runTop d = Except.ok (run d) ∧
    Step.close ∈ (run d).loggedErrors ∧
    (∀ e ∈ (runBody d).2.toList, e ∈ (run d).loggedErrors) := by
  obtain ⟨c, a1, a2, g, e1, e2, e3, em, cl⟩ := d
  refine ⟨runTop_eq_ok _, ?_⟩
  revert h1 h2
  cases c <;> cases a1 <;> cases a2 <;> cases g <;> cases e1 <;> cases e2 <;>
    cases e3 <;> cases em <;> cases cl <;> decide

/-- C7 holds at a driver where the descriptor fetch and the close both
fail: the body error and the close error are both logged and run still
resolves. -/
theorem spec_C7_witness :
    classCloseFailDriver.getConnOk = true ∧
    classCloseFailDriver.closeOk = false ∧
    (runTop classCloseFailDriver = Except.ok (run classCloseFailDriver) ∧
      Step.close ∈ (run classCloseFailDriver).loggedErrors ∧
      (∀ e ∈ (runBody classCloseFailDriver).2.toList,
        e ∈ (run classCloseFailDriver).loggedErrors)) :=
  ⟨rfl, rfl, spec_C7 classCloseFailDriver rfl rfl⟩

/-- C8: when the descriptor fetch fails after a successful connection, no
execute or executeMany call of the procedure is attempted, the error is
logged, and close is still attempted exactly once. -/
theorem spec_C8 (d : Driver) (h1 : d.getConnOk = true)
    (h2 : d.getClassOk = false) :
    (run d).body.execAttempts = 0 ∧
    Step.getClass ∈ (run d).loggedErrors ∧
    (run d).closeAttempts = 1 := by
  obtain ⟨c, a1, a2, g, e1, e2, e3, em, cl⟩ := d
  revert h1 h2
  cases c <;> cases a1 <;> cases a2 <;> cases g <;> cases e1 <;> cases e2 <;>
    cases e3 <;> cases em <;> cases cl <;> decide

/-- C8 holds at a driver whose descriptor fetch fails. -/
theorem spec_C8_witness :
    classFailDriver.getConnOk = true ∧
    classFailDriver.getClassOk = false ∧
    ((run classFailDriver).body.execAttempts = 0 ∧
      Step.getClass ∈ (run classFailDriver).loggedErrors ∧
      (run classFailDriver).closeAttempts = 1) :=
  ⟨rfl, rfl, spec_C8 classFailDriver rfl rfl⟩

/-- C9: on a run where every driver call succeeds, exactly five record
values are printed, in the fixed order Ship 24, Plane 68, Car 112, Train
156, Bike 166. -/
theorem spec_C9 (d : Driver) (h : allCallsOk d = true) :
    (run d).body.printed =
      [RecType.mk "Ship" 24, RecType.mk "Plane" 68, RecType.mk "Car" 112,
        RecType.mk "Train" 156, RecType.mk "Bike" 166] ∧
    (run d).body.printed.length = 5 := by
  obtain ⟨c, a1, a2, g, e1, e2, e3, em, cl⟩ := d
  revert h
  cases c <;> cases a1 <;> cases a2 <;> cases g <;> cases e1 <;> cases e2 <;>
    cases e3 <;> cases em <;> cases cl <;> decide

/-- C9 holds at the all-success driver. -/
theorem spec_C9_witness :
    allCallsOk allOkDriver = true ∧
    ((run allOkDriver).body.printed =
      [RecType.mk "Ship" 24, RecType.mk "Plane" 68, RecType.mk "Car" 112,
        RecType.mk "Train" 156, RecType.mk "Bike" 166] ∧
      (run allOkDriver).body.printed.length = 5) :=
  ⟨rfl, spec_C9 allOkDriver rfl⟩

/-- No event of run is an initOracleClient event. -/
theorem mem_runEvents_call (d : Driver) :
    ∀ e ∈ runEvents d, ∃ s, e = Event.call s := by
  intro e he
  unfold runEvents at he
  rcases List.mem_map.mp he with ⟨s, _, rfl⟩
  exact ⟨s, rfl⟩

/-- Every event of module load is an initOracleClient event. -/
theorem mem_mod_init (platform home : String) (ex : String → Bool) :
    ∀ e ∈ moduleLoadEvents platform home ex, ∃ p, e = Event.initClient p := by
  intro e he
  unfold moduleLoadEvents at he
  by_cases hg : initInvoked platform home ex
  · rw [if_pos hg] at he
    exact ⟨(libPathOf platform home).getD "", by simpa using he⟩
  · rw [if_neg hg] at he
    simp at he

/-- Module load emits at most one event. -/
theorem length_mod_le (platform home : String) (ex : String → Bool) :
    (moduleLoadEvents platform home ex).length ≤ 1 := by
  unfold moduleLoadEvents
  by_cases hg : initInvoked platform home ex
  · rw [if_pos hg]; simp
  · rw [if_neg hg]; simp

/-- Mapping driver calls to events produces no initOracleClient event. -/
theorem countP_map_call (l : List Step) :
    (l.map Event.call).countP isInitEvent = 0 := by
  induction l with
  | nil => rfl
  | cons a t ih => simp [List.countP_cons, isInitEvent, ih]

/-- C10: initOracleClient is invoked at most once per process; it is
invoked exactly when the platform is win32 or darwin and the corresponding
hard-coded client-library directory exists; and the invocation happens at
module load, before the connection attempt of run, on every driver and
every existsSync oracle. -/
theorem spec_C10 (platform home : String) (ex : String → Bool) (d : Driver) :
    (scriptEvents platform home ex d).countP isInitEvent ≤ 1 ∧
    (initInvoked platform home ex = true ↔
      (platform = "win32" ∧ ex winLibPath = true) ∨
      (platform = "darwin" ∧ ex (home ++ macLibSuffix) = true)) ∧
    (∀ (i j : Nat) (dir : String),
      (scriptEvents platform home ex d)[i]? = some (Event.initClient dir) →
      (scriptEvents platform home ex d)[j]? = some (Event.call Step.getConn) →
      i < j) := by
  refine ⟨?_, ?_, ?_⟩
  · unfold scriptEvents runEvents
    rw [List.countP_append, countP_map_call]
    have h1 := List.countP_le_length (p := isInitEvent)
      (l := moduleLoadEvents platform home ex)
    have h2 := length_mod_le platform home ex
    omega
  · unfold initInvoked libPathOf
    by_cases hw : platform = "win32"
    · have h1 : ¬ (winLibPath = "") := by decide
      have h2 : ¬ (("win32" : String) = "darwin") := by decide
      simp [hw, h1, h2]
    · by_cases hd : platform = "darwin"
      · have h1 : ¬ (home ++ macLibSuffix = "") := by
          intro h
          have hlen := congrArg String.length h
          rw [String.length_append] at hlen
          have hm : macLibSuffix.length = 29 := by decide
          simp [hm] at hlen
        simp [hw, hd, h1]
      · simp [hw, hd]
  · intro i j dir hi hj
    unfold scriptEvents at hi hj
    by_cases him : i < (moduleLoadEvents platform home ex).length
    · by_cases hjm : j < (moduleLoadEvents platform home ex).length
      · rw [List.getElem?_append_left hjm] at hj
        rcases mem_mod_init platform home ex _ (List.getElem?_mem hj) with ⟨p, hp⟩
        exact Event.noConfusion hp
      · omega
    · push_neg at him
      rw [List.getElem?_append_right him] at hi
      rcases mem_runEvents_call d _ (List.getElem?_mem hi) with ⟨s, hs⟩
      exact Event.noConfusion hs

/-- C10 on win32 with the client directory present: the initOracleClient
event is the first script event and precedes the connection attempt. -/
theorem spec_C10_witness :
    (scriptEvents "win32" "" exTrue allOkDriver)[0]? =
      some (Event.initClient winLibPath) ∧
    (scriptEvents "win32" "" exTrue allOkDriver)[1]? =
      some (Event.call Step.getConn) ∧
    (0 : Nat) < 1 :=
  ⟨by decide, by decide,
    (spec_C10 "win32" "" exTrue allOkDriver).2.2 0 1 winLibPath (by decide)
      (by decide)⟩
